import Mathlib

/-!
Verification of the codebender828/redis-rs sources: a shallow embedding of
the wire-protocol parser (src/parser.rs), the expiry-aware key-value store
(src/storage.rs) and the RDB snapshot decoder plus loader (src/database.rs),
together with theorems settling the specification claims about them.

Modelling conventions:
* Rust functions that can return, fail with an error, or panic are embedded
  as functions into `RResult`: `.ok` models a normal return, `.err` models a
  returned `Err`/`Result` error carrying the error message the source builds,
  and `.panicked` models a Rust panic (out-of-bounds slice indexing,
  `unwrap()`/`expect()` on an error value).  Slice indexing that the source
  performs without a bounds check is embedded through `vecIndex`, which
  yields `.panicked` out of bounds exactly as the Rust indexing would.
* Machine bytes are `Fin 256`; wider machine integers are `Nat`/`Int` with
  explicit two-complement reinterpretation where the source casts.
* `tokio::time::Instant`, `Duration` and `SystemTime` are modelled as `Nat`
  counts of milliseconds (`Duration::from_secs d` becomes `d * 1000`); each
  call to `Instant::now()` / `SystemTime::now()` in the source becomes an
  explicit `now : Nat` argument.
* The shared `DashMap` behind `Storage` is modelled as an association list
  holding at most one binding per key: `insert` removes every older binding
  of the key, matching the replace semantics of `DashMap::insert`.
-/

namespace RedisRs

/-- Outcome of running a piece of Rust code: a normal return value, a
returned error (the `Err` side of a `Result`, carrying its message), or a
panic. -/
inductive RResult (α : Type) where
  | ok (a : α)
  | err (e : String)
  | panicked
deriving Repr, DecidableEq

/-- Machine byte (`u8`). -/
abbrev Byte := Fin 256

/-- Builds a byte from a natural number, reducing modulo 256. -/
def mkByte (n : Nat) : Byte := ⟨n % 256, Nat.mod_lt _ (by decide)⟩

/-- Rust slice / `Vec` indexing `xs[i]`: out-of-bounds indexing panics. -/
def vecIndex {α : Type} (xs : List α) (i : Nat) : RResult α :=
  match xs.get? i with
  | some x => RResult.ok x
  | none => RResult.panicked

/-! ## String primitives

Rust string operations used by the sources, re-implemented by structural
recursion on the character list so that every definition evaluates inside
the kernel.  `to_uppercase`, `trim` and whitespace are modelled on the ASCII
range (every character the claims exercise is ASCII). -/

/-- Rust `char::to_uppercase` restricted to ASCII letters. -/
def rsCharUpper (c : Char) : Char :=
  if 97 ≤ c.toNat ∧ c.toNat ≤ 122 then Char.ofNat (c.toNat - 32) else c

/-- Rust `str::to_uppercase` (ASCII model). -/
def rsToUpper (s : String) : String :=
  (s.toList.map rsCharUpper).asString

/-- Does the first list start with the second one? -/
def listStartsList : List Char → List Char → Bool
  | _, [] => true
  | [], _ :: _ => false
  | c :: cs, p :: ps => c == p && listStartsList cs ps

/-- Rust `str::starts_with` on a pattern string. -/
def rsStartsWith (s pat : String) : Bool :=
  listStartsList s.toList pat.toList

/-- Rust `str::is_empty`. -/
def rsIsEmpty (s : String) : Bool :=
  s.toList.isEmpty

/-- Splitting on the two-character separator `"\r\n"`, accumulating the
current segment in reverse; mirrors Rust `str::split("\r\n")`, which yields
every (possibly empty) segment between non-overlapping separator
occurrences, scanning left to right. -/
def splitCRLFAux : List Char → List Char → List String
  | [], acc => [acc.reverse.asString]
  | '\r' :: '\n' :: rest, acc => acc.reverse.asString :: splitCRLFAux rest []
  | c :: rest, acc => splitCRLFAux rest (c :: acc)

/-- Rust `str::split("\r\n")` collected into a vector. -/
def rsSplitCRLF (s : String) : List String :=
  splitCRLFAux s.toList []

/-- ASCII whitespace test (model of `char::is_whitespace` on the ASCII
range). -/
def rsIsWhitespace (c : Char) : Bool :=
  c == ' ' || c == '\t' || c == '\n' || c == '\r'

/-- Rust `str::trim` (ASCII-whitespace model). -/
def rsTrim (s : String) : String :=
  (((s.toList.dropWhile rsIsWhitespace).reverse.dropWhile rsIsWhitespace).reverse).asString

/-- Digit-by-digit accumulation for `str::parse` of an unsigned integer:
fails on any non-digit character. -/
def rsParseNatAux : List Char → Nat → Option Nat
  | [], acc => some acc
  | c :: rest, acc =>
    if 48 ≤ c.toNat ∧ c.toNat ≤ 57 then rsParseNatAux rest (acc * 10 + (c.toNat - 48))
    else none

/-- Rust `str::parse` of an unsigned integer, without the width bound: an
optional leading `+`, then at least one decimal digit and nothing else. -/
def rsParseNat (s : String) : Option Nat :=
  match s.toList with
  | [] => none
  | '+' :: rest => if rest.isEmpty then none else rsParseNatAux rest 0
  | l => rsParseNatAux l 0

/-- `str::parse::<u64>`: digits plus the `u64` range check. -/
def parse_u64 (s : String) : Option Nat :=
  match rsParseNat s with
  | some n => if n < 2 ^ 64 then some n else none
  | none => none

/-- `str::parse::<u32>`: digits plus the `u32` range check. -/
def parse_u32 (s : String) : Option Nat :=
  match rsParseNat s with
  | some n => if n < 2 ^ 32 then some n else none
  | none => none

/-! ## src/parser.rs -/

/-- The `Command` enum of src/parser.rs (lines 3-11).  Note that the source
declares exactly these six constructors; in particular it has no `KEYS` and
no `INFO` constructor, even though the dispatch loop in src/main.rs matches
on `Command::KEYS(..)` and `Command::INFO(..)`. -/
inductive Command where
  | PING (msg : Option String)
  | ECHO (msg : String)
  | SET (key : String) (value : String) (options : Option (List (String × String)))
  | GET (key : String)
  | CONFIGGET (param : String)
  | UNKNOWN (name : String)
deriving Repr, DecidableEq

/-- Rust `chunks(2)` followed by `filter_map` keeping only full pairs and
upper-casing the first component, as in `group_redis_optional_arguments`. -/
def chunkPairsUpper : List String → List (String × String)
  | a :: b :: rest => (rsToUpper a, b) :: chunkPairsUpper rest
  | _ => []

/-- `group_redis_optional_arguments` of src/parser.rs (lines 134-148): drops
empty strings, then groups the remaining tokens two at a time, upper-casing
option names; a trailing unpaired token is dropped. -/
def group_redis_optional_arguments (options : List String) : List (String × String) :=
  chunkPairsUpper (options.filter (fun s => !(rsIsEmpty s)))

/-- The `match command.as_str()` body of `parse_command` (src/parser.rs
lines 38-113).  `parts.getD i ""` is used only where the source has already
established that index `i` is in bounds, so the default is never read;
`vecIndex` is used for the one raw access (`parts[6]` in the `CONFIG GET`
arm) that the source performs without a sufficient bounds check. -/
def parse_dispatch (command : String) (parts : List String) : RResult Command :=
  if command = "ECHO" then
    if parts.length < 6 then RResult.err "Invalid ECHO command format"
    else RResult.ok (Command.ECHO (parts.getD 4 ""))
  else if command = "PING" then
    if parts.length < 4 then RResult.err "Invalid PING command format"
    else if 6 ≤ parts.length then RResult.ok (Command.PING (some (parts.getD 4 "")))
    else RResult.ok (Command.PING none)
  else if command = "SET" then
    if parts.length < 7 then
      (if parts.length < 6 then RResult.err "Invalid SET command format"
       else RResult.err "Invalid SET command format: value not provided")
    else if parts.length = 8 then
      RResult.ok (Command.SET (parts.getD 4 "") (parts.getD 6 "") none)
    else if 8 < parts.length then
      RResult.ok (Command.SET (parts.getD 4 "") (parts.getD 6 "")
        (some (group_redis_optional_arguments
          ((parts.drop 8).filter (fun s => !(rsStartsWith s "$"))))))
    else RResult.err "Invalid SET command format: Unknown optional parameters"
  else if command = "GET" then
    if parts.length < 6 then
      (if parts.length < 5 then RResult.err "Invalid GET command format"
       else RResult.err "Invalid GET command format: key not provided")
    else RResult.ok (Command.GET (parts.getD 4 ""))
  else if command = "CONFIG GET" then
    if parts.length < 5 then RResult.err "Invalid CONFIG GET command format"
    else
      match vecIndex parts 6 with
      | RResult.ok p6 => RResult.ok (Command.CONFIGGET p6)
      | RResult.err e => RResult.err e
      | RResult.panicked => RResult.panicked
  else RResult.ok (Command.UNKNOWN command)

/-- `parse_command` of src/parser.rs (lines 21-114) applied to the already
`\r\n`-split segment list.  The guard mirrors
`parts.len() < 4 || !parts[0].starts_with("*")` (the `parts[0]` access is in
bounds whenever it is evaluated); `parts[2]` is in bounds under the guard.
The `CONFIG` rewrite accesses `parts[4]` with no bounds check (source line
35), hence `vecIndex`. -/
def parse_command_parts (parts : List String) : RResult Command :=
  if parts.length < 4 ∨ rsStartsWith (parts.getD 0 "") "*" = false then
    RResult.err "Invalid RESP format"
  else
    if rsStartsWith (rsToUpper (parts.getD 2 "")) "CONFIG" then
      match vecIndex parts 4 with
      | RResult.ok p4 =>
          parse_dispatch (rsToUpper (parts.getD 2 "") ++ " " ++ rsToUpper p4) parts
      | RResult.err e => RResult.err e
      | RResult.panicked => RResult.panicked
    else parse_dispatch (rsToUpper (parts.getD 2 "")) parts

/-- `parse_command` on a textual frame: the source first UTF-8-decodes the
byte buffer (invalid UTF-8 yields an `Err`, a path outside this model, which
starts from the decoded text) and then splits on `"\r\n"`. -/
def parse_command (input : String) : RResult Command :=
  parse_command_parts (rsSplitCRLF input)

/-! ## src/storage.rs

Time is a `Nat` count of milliseconds; `Instant::now()` becomes the explicit
`now` argument of `storage_set` / `storage_get`. -/

/-- The `StorageValue` struct of src/storage.rs (lines 5-10). -/
structure StorageValue where
  created_at : Nat
  value : String
  expires_at : Option Nat
deriving Repr, DecidableEq

/-- The `DashMap<String, StorageValue>` inside `Storage`, modelled as an
association list with at most one binding per key. -/
abbrev Storage := List (String × StorageValue)

/-- Map lookup (`DashMap::get`). -/
def storage_lookup (st : Storage) (key : String) : Option StorageValue :=
  match st with
  | [] => none
  | kv :: rest => if kv.1 = key then some kv.2 else storage_lookup rest key

/-- Map insertion (`DashMap::insert`): replaces any existing binding of the
key. -/
def storage_insert (st : Storage) (key : String) (v : StorageValue) : Storage :=
  (key, v) :: st.filter (fun kv => !(decide (kv.1 = key)))

/-- `Storage::remove` (src/storage.rs lines 77-79). -/
def storage_remove (st : Storage) (key : String) : Storage :=
  st.filter (fun kv => !(decide (kv.1 = key)))

/-- One iteration of the option loop in `Storage::set` (src/storage.rs lines
44-72): `EX` and `PX` overwrite `expires_at` relative to the already fixed
`created_at`; a value that fails `parse::<u64>` is skipped (`continue`), and
an unrecognized option name is ignored. -/
def apply_set_option (created_at : Nat) (expires_at : Option Nat)
    (argument argument_value : String) : Option Nat :=
  if argument = "EX" then
    match parse_u64 argument_value with
    | some duration => some (created_at + duration * 1000)
    | none => expires_at
  else if argument = "PX" then
    match parse_u64 argument_value with
    | some duration => some (created_at + duration)
    | none => expires_at
  else expires_at

/-- `Storage::set` (src/storage.rs lines 35-75): builds a fresh
`StorageValue` with `created_at = now` and no expiry, folds the option list
over it, then inserts it, replacing any previous entry wholesale. -/
def storage_set (st : Storage) (key value : String)
    (options : List (String × String)) (now : Nat) : Storage :=
  let expires :=
    options.foldl (fun acc opt => apply_set_option now acc opt.1 opt.2) none
  storage_insert st key { created_at := now, value := value, expires_at := expires }

/-- `Storage::get` (src/storage.rs lines 82-97): returns the value and the
possibly updated map.  An entry whose `expires_at` is strictly before `now`
is removed (lazy expiry) and nothing is returned; otherwise the stored value
is returned and the map is untouched. -/
def storage_get (st : Storage) (key : String) (now : Nat) :
    Option String × Storage :=
  match storage_lookup st key with
  | none => (none, st)
  | some v =>
    match v.expires_at with
    | some expires_at =>
      if expires_at < now then (none, storage_remove st key)
      else (some v.value, st)
    | none => (some v.value, st)

/-! ## src/database.rs — RDB snapshot decoder

The `RDBParser` methods never read any parser state other than the raw byte
buffer, so they are embedded as plain functions over `List Byte`.  Bitwise
source expressions (`& 0x3f`, `<< 8`, `|`) are kept as the corresponding
`Nat` operations `&&&`, `<<<`, `|||`. -/

/-- Little-endian reassembly of `w` bytes into a `Nat`
(`uN::from_le_bytes`). -/
def leBytesToNat : List Byte → Nat
  | [] => 0
  | b :: rest => b.val + 256 * leBytesToNat rest

/-- Two-complement reinterpretation of an unsigned `w`-bit value as a signed
integer (`iN::from_le_bytes` after `leBytesToNat`). -/
def toSigned (w : Nat) (n : Nat) : Int :=
  if n < 2 ^ (w - 1) then (n : Int) else (n : Int) - 2 ^ w

/-- Little-endian byte decomposition of width `w` (`to_le_bytes` on an
unsigned value). -/
def natLeBytes : Nat → Nat → List Byte
  | 0, _ => []
  | w + 1, v => mkByte (v % 256) :: natLeBytes w (v / 256)

/-- `i64::to_le_bytes`: two-complement little-endian bytes of a signed
64-bit value. -/
def i64LeBytes (v : Int) : List Byte :=
  natLeBytes 8 (v % (2 ^ 64 : Int)).toNat

/-- `RDBParser::decode_length` (src/database.rs lines 188-240): dispatch on
the first byte.  The source guards each multi-byte branch with a
`data.len()` check before indexing, which the tail patterns mirror
exactly. -/
def decode_length (data : List Byte) : RResult (Nat × Nat) :=
  match data with
  | [] => RResult.err "Empty data when decoding length"
  | b0 :: rest =>
    if b0.val ≤ 63 then RResult.ok (1, b0.val)
    else if b0.val ≤ 127 then
      match rest with
      | [] => RResult.err "Insufficient data for medium length"
      | b1 :: _ => RResult.ok (2, ((b0.val &&& 0x3f) <<< 8) ||| b1.val)
    else if b0.val ≤ 191 then
      match rest with
      | b1 :: b2 :: b3 :: _ =>
        RResult.ok (4, ((b0.val &&& 0x3f) <<< 24) ||| (b1.val <<< 16) ||| (b2.val <<< 8) ||| b3.val)
      | _ => RResult.err "Insufficient data for long length"
    else if b0.val ≤ 253 then RResult.ok (1, b0.val - 192)
    else if b0.val = 254 then
      match rest with
      | b1 :: b2 :: b3 :: b4 :: _ =>
        RResult.ok (5, leBytesToNat [b1, b2, b3, b4])
      | _ => RResult.err "Insufficient data for 32-bit length"
    else RResult.err "Invalid length encoding (255)"

/-- `RDBParser::decode_integer` (src/database.rs lines 243-290).  The `0xC0`
arm indexes `data[1]` with no bounds check, so a one-byte buffer panics
there; the other width arms check the length first.  The `192..=223` range
arm is reached only for `196..=223` because the literal `0xC0..0xC3` arms
come first in the source `match`. -/
def decode_integer (data : List Byte) : RResult (Nat × Int) :=
  match data with
  | [] => RResult.err "Empty data"
  | b0 :: rest =>
    if b0.val = 0xC0 then
      match rest with
      | b1 :: _ => RResult.ok (2, (b1.val : Int))
      | [] => RResult.panicked
    else if b0.val = 0xC1 then
      match rest with
      | b1 :: b2 :: _ => RResult.ok (3, toSigned 16 (leBytesToNat [b1, b2]))
      | _ => RResult.err "Insufficient data for 16-bit integer"
    else if b0.val = 0xC2 then
      match rest with
      | b1 :: b2 :: b3 :: b4 :: _ => RResult.ok (5, toSigned 32 (leBytesToNat [b1, b2, b3, b4]))
      | _ => RResult.err "Insufficient data for 32-bit integer"
    else if b0.val = 0xC3 then
      match rest with
      | b1 :: b2 :: b3 :: b4 :: b5 :: b6 :: b7 :: b8 :: _ =>
        RResult.ok (9, toSigned 64 (leBytesToNat [b1, b2, b3, b4, b5, b6, b7, b8]))
      | _ => RResult.err "Insufficient data for 64-bit integer"
    else if 192 ≤ b0.val ∧ b0.val ≤ 223 then
      RResult.ok (1, ((b0.val &&& 0x3f : Nat) : Int))
    else RResult.err ("Invalid integer encoding: " ++ toString b0.val)

/-- `RDBParser::decode_length_encoded_data` (src/database.rs lines 293-329):
decode a length, then take exactly that many following bytes as the
payload; fails if fewer than `length_bytes + length` bytes are available. -/
def decode_length_encoded_data (data : List Byte) : RResult (Nat × List Byte) :=
  if data.isEmpty then RResult.err "Empty data when decoding length-encoded data"
  else
    match decode_length data with
    | RResult.err e => RResult.err e
    | RResult.panicked => RResult.panicked
    | RResult.ok (length_bytes, length) =>
      if data.length < length_bytes + length then
        RResult.err ("Insufficient data for encoded string. Need " ++
          toString (length_bytes + length) ++ " bytes, have " ++ toString data.length)
      else RResult.ok (length_bytes + length, (data.drop length_bytes).take length)

/-- Model of `str::from_utf8` restricted to the ASCII range: an all-ASCII
byte slice decodes to the corresponding string, anything else is mapped to
the failure case.  (A multi-byte UTF-8 sequence that Rust would decode
successfully can never equal `"REDIS"` nor parse as decimal digits, so on
every input both sides of the embedding take an error path; only the exact
error message of `parse_rdb_version` can differ there.) -/
def asciiStr (bs : List Byte) : Option String :=
  if bs.all (fun b => b.val < 128) then
    some ((bs.map (fun b => Char.ofNat b.val)).asString)
  else none

/-- `RDBParser::parse_rdb_version` (src/database.rs lines 169-182, identical
to the free function at lines 84-97): the first 5 bytes must spell
`"REDIS"`, bytes 5-8 must parse as a `u32`. -/
def parse_rdb_version (data : List Byte) : RResult Nat :=
  if data.length < 9 then RResult.err "Input data too short to parse RDB version"
  else
    match asciiStr (data.take 5) with
    | none => RResult.err "Invalid magic string"
    | some magic =>
      if magic ≠ "REDIS" then RResult.err "Invalid RDB file. Magic String is missing"
      else
        match asciiStr ((data.drop 5).take 4) with
        | none => RResult.err "Invalid RDB version"
        | some version =>
          match parse_u32 version with
          | none => RResult.err "Invalid RDB version"
          | some v => RResult.ok v

/-- Loop body of `RDBParser::parse_auxiliary_fields` (src/database.rs lines
332-363).  The loop keeps consuming while the byte at the cursor is `0xFA`;
after decoding the key the source reads `data[index]` with no bounds check
(line 347), hence `vecIndex`.  The cursor strictly advances on every
iteration, so `data.length + 1` units of fuel can never run out; the fuel-0
branch is unreachable. -/
def aux_fields_loop (data : List Byte) :
    Nat → Nat → List (List Byte × List Byte) → RResult (List (List Byte × List Byte) × Nat)
  | 0, _, _ => RResult.err "unreachable: aux field loop fuel exhausted"
  | fuel + 1, index, fields =>
    match data.get? index with
    | none => RResult.ok (fields, index)
    | some b =>
      if b.val = 0xFA then
        match decode_length_encoded_data (data.drop (index + 1)) with
        | RResult.err e => RResult.err e
        | RResult.panicked => RResult.panicked
        | RResult.ok (key_bytes, key) =>
          match vecIndex data (index + 1 + key_bytes) with
          | RResult.err e => RResult.err e
          | RResult.panicked => RResult.panicked
          | RResult.ok vb =>
            if 0xC0 ≤ vb.val ∧ vb.val ≤ 0xC3 then
              match decode_integer (data.drop (index + 1 + key_bytes)) with
              | RResult.err e => RResult.err e
              | RResult.panicked => RResult.panicked
              | RResult.ok (int_bytes, int_value) =>
                aux_fields_loop data fuel (index + 1 + key_bytes + int_bytes)
                  (fields ++ [(key, i64LeBytes int_value)])
            else
              match decode_length_encoded_data (data.drop (index + 1 + key_bytes)) with
              | RResult.err e => RResult.err e
              | RResult.panicked => RResult.panicked
              | RResult.ok (str_bytes, str_value) =>
                aux_fields_loop data fuel (index + 1 + key_bytes + str_bytes)
                  (fields ++ [(key, str_value)])
      else RResult.ok (fields, index)

/-- `RDBParser::parse_auxiliary_fields`: starts scanning at index 9, right
after the RDB version. -/
def parse_auxiliary_fields (data : List Byte) :
    RResult (List (List Byte × List Byte) × Nat) :=
  aux_fields_loop data (data.length + 1) 9 []

/-- The `for _ in 0..length` element loop shared by the list (tag 1) and set
(tag 2) arms of `decode_value`: each element is a length-encoded string,
appended to the accumulator followed by a `b','` separator. -/
def decode_list_elements (data : List Byte) :
    Nat → Nat → List Byte → RResult (List Byte × Nat)
  | 0, index, acc => RResult.ok (acc, index)
  | n + 1, index, acc =>
    match decode_length_encoded_data (data.drop index) with
    | RResult.err e => RResult.err e
    | RResult.panicked => RResult.panicked
    | RResult.ok (value_bytes, value) =>
      decode_list_elements data n (index + value_bytes) (acc ++ value ++ [mkByte 44])

/-- The element loop of the sorted-set arm (tag 3) of `decode_value`: a
length-encoded member, then a score read with
`self.decode_length(..).unwrap()` — the `unwrap` turns a decode error into
a panic — appended as `member : score-le-bytes ,`. -/
def decode_zset_elements (data : List Byte) :
    Nat → Nat → List Byte → RResult (List Byte × Nat)
  | 0, index, acc => RResult.ok (acc, index)
  | n + 1, index, acc =>
    match decode_length_encoded_data (data.drop index) with
    | RResult.err e => RResult.err e
    | RResult.panicked => RResult.panicked
    | RResult.ok (member_bytes, member) =>
      match decode_length (data.drop (index + member_bytes)) with
      | RResult.ok (score_bytes, score) =>
        decode_zset_elements data n (index + member_bytes + score_bytes)
          (acc ++ member ++ [mkByte 58] ++ natLeBytes 8 score ++ [mkByte 44])
      | _ => RResult.panicked

/-- The element loop of the hash arm (tag 4) of `decode_value`: pairs of
length-encoded field and value, appended as `field : value ,`. -/
def decode_hash_elements (data : List Byte) :
    Nat → Nat → List Byte → RResult (List Byte × Nat)
  | 0, index, acc => RResult.ok (acc, index)
  | n + 1, index, acc =>
    match decode_length_encoded_data (data.drop index) with
    | RResult.err e => RResult.err e
    | RResult.panicked => RResult.panicked
    | RResult.ok (field_bytes, field) =>
      match decode_length_encoded_data (data.drop (index + field_bytes)) with
      | RResult.err e => RResult.err e
      | RResult.panicked => RResult.panicked
      | RResult.ok (value_bytes, value) =>
        decode_hash_elements data n (index + field_bytes + value_bytes)
          (acc ++ field ++ [mkByte 58] ++ value ++ [mkByte 44])

/-- The trailing `if !v.is_empty() { v.pop(); }` of the collection arms. -/
def popSeparator (l : List Byte) : List Byte :=
  if l.isEmpty then l else l.dropLast

/-- `RDBParser::decode_value` (src/database.rs lines 366-494), returning the
decoded value together with the advanced cursor.  The collection arms call
`decode_length(..).unwrap()` for their element count, so a decode error
there panics. -/
def decode_value (data : List Byte) (value_type : Byte) (index : Nat) :
    RResult (List Byte × Nat) :=
  if value_type.val = 0 then
    match decode_length_encoded_data (data.drop index) with
    | RResult.err e => RResult.err e
    | RResult.panicked => RResult.panicked
    | RResult.ok (value_bytes, value) => RResult.ok (value, index + value_bytes)
  else if value_type.val = 1 ∨ value_type.val = 2 then
    match decode_length (data.drop index) with
    | RResult.ok (length_bytes, length) =>
      match decode_list_elements data length (index + length_bytes) [] with
      | RResult.err e => RResult.err e
      | RResult.panicked => RResult.panicked
      | RResult.ok (l, index2) => RResult.ok (popSeparator l, index2)
    | _ => RResult.panicked
  else if value_type.val = 3 then
    match decode_length (data.drop index) with
    | RResult.ok (length_bytes, length) =>
      match decode_zset_elements data length (index + length_bytes) [] with
      | RResult.err e => RResult.err e
      | RResult.panicked => RResult.panicked
      | RResult.ok (l, index2) => RResult.ok (popSeparator l, index2)
    | _ => RResult.panicked
  else if value_type.val = 4 then
    match decode_length (data.drop index) with
    | RResult.ok (length_bytes, length) =>
      match decode_hash_elements data length (index + length_bytes) [] with
      | RResult.err e => RResult.err e
      | RResult.panicked => RResult.panicked
      | RResult.ok (l, index2) => RResult.ok (popSeparator l, index2)
    | _ => RResult.panicked
  else if value_type.val = 9 ∨ value_type.val = 10 ∨ value_type.val = 11 ∨ value_type.val = 12 then
    match decode_integer (data.drop index) with
    | RResult.err e => RResult.err e
    | RResult.panicked => RResult.panicked
    | RResult.ok (int_bytes, int_value) =>
      RResult.ok (i64LeBytes int_value, index + int_bytes)
  else if value_type.val = 55 ∨ value_type.val = 250 then
    match data.get? index with
    | some b => RResult.ok ([b], index + 1)
    | none => RResult.err "Unexpected end of data"
  else RResult.err ("Unknown or unsupported encoding: " ++ toString value_type.val)

/-- `RDBParser::process_key_value_pair` (src/database.rs lines 602-616): a
raw `data[*index]` read of the type tag (panics out of bounds), a
length-encoded key, then the tag-directed value. -/
def process_key_value_pair (data : List Byte) (index : Nat) :
    RResult ((List Byte × List Byte) × Nat) :=
  match vecIndex data index with
  | RResult.err e => RResult.err e
  | RResult.panicked => RResult.panicked
  | RResult.ok value_type =>
    match decode_length_encoded_data (data.drop (index + 1)) with
    | RResult.err e => RResult.err e
    | RResult.panicked => RResult.panicked
    | RResult.ok (key_bytes, key) =>
      match decode_value data value_type (index + 1 + key_bytes) with
      | RResult.err e => RResult.err e
      | RResult.panicked => RResult.panicked
      | RResult.ok (value, index2) => RResult.ok ((key, value), index2)

/-- Loop body of `RDBParser::process_entries` (src/database.rs lines
532-600).  Expiry stamps are absolute times in milliseconds: the `0xFD` arm
reads a 4-byte little-endian second count (scaled by 1000), the `0xFC` arm
an 8-byte little-endian millisecond count; both index
`data[index + 1 ..]` without a bounds check and hence panic on a truncated
buffer.  The cursor strictly advances on every iteration, so
`data.length + 1` units of fuel can never run out. -/
def process_entries_loop (data : List Byte) :
    Nat → Nat → List (List Byte × List Byte) → List (List Byte × List Byte × Nat) →
    RResult (List (List Byte × List Byte) × List (List Byte × List Byte × Nat))
  | 0, _, _, _ => RResult.err "unreachable: entry loop fuel exhausted"
  | fuel + 1, index, entries, expiry_entries =>
    match data.get? index with
    | none => RResult.ok (entries, expiry_entries)
    | some b =>
      if b.val = 0xFE then
        match data.get? (index + 2) with
        | some b2 =>
          if b2.val = 0xFB then
            match decode_length (data.drop (index + 3)) with
            | RResult.err e => RResult.err e
            | RResult.panicked => RResult.panicked
            | RResult.ok (size_bytes, _) =>
              match decode_length (data.drop (index + 3 + size_bytes)) with
              | RResult.err e => RResult.err e
              | RResult.panicked => RResult.panicked
              | RResult.ok (expire_size_bytes, _) =>
                process_entries_loop data fuel (index + 3 + size_bytes + expire_size_bytes)
                  entries expiry_entries
          else process_entries_loop data fuel (index + 2) entries expiry_entries
        | none => process_entries_loop data fuel (index + 2) entries expiry_entries
      else if b.val = 0xFD then
        match data.get? (index + 1), data.get? (index + 2),
              data.get? (index + 3), data.get? (index + 4) with
        | some b1, some b2, some b3, some b4 =>
          match process_key_value_pair data (index + 5) with
          | RResult.err e => RResult.err e
          | RResult.panicked => RResult.panicked
          | RResult.ok ((key, value), index2) =>
            process_entries_loop data fuel index2 entries
              (expiry_entries ++ [(key, value, leBytesToNat [b1, b2, b3, b4] * 1000)])
        | _, _, _, _ => RResult.panicked
      else if b.val = 0xFC then
        match data.get? (index + 1), data.get? (index + 2), data.get? (index + 3),
              data.get? (index + 4), data.get? (index + 5), data.get? (index + 6),
              data.get? (index + 7), data.get? (index + 8) with
        | some b1, some b2, some b3, some b4, some b5, some b6, some b7, some b8 =>
          match process_key_value_pair data (index + 9) with
          | RResult.err e => RResult.err e
          | RResult.panicked => RResult.panicked
          | RResult.ok ((key, value), index2) =>
            process_entries_loop data fuel index2 entries
              (expiry_entries ++ [(key, value, leBytesToNat [b1, b2, b3, b4, b5, b6, b7, b8])])
        | _, _, _, _, _, _, _, _ => RResult.panicked
      else if b.val = 0xFF then RResult.ok (entries, expiry_entries)
      else
        match process_key_value_pair data index with
        | RResult.err e => RResult.err e
        | RResult.panicked => RResult.panicked
        | RResult.ok ((key, value), index2) =>
          process_entries_loop data fuel index2 (entries ++ [(key, value)]) expiry_entries

/-- `RDBParser::process_entries`. -/
def process_entries (data : List Byte) :
    RResult (List (List Byte × List Byte) × List (List Byte × List Byte × Nat)) :=
  process_entries_loop data (data.length + 1) 0 [] []

/-- The parser state `RDBParser::parse` fills in (src/database.rs lines
100-111 and 129-166): version, auxiliary fields, plain entries and expiring
entries. -/
structure RDBContents where
  rdb_version : Nat
  aux_fields : List (List Byte × List Byte)
  entries : List (List Byte × List Byte)
  expiry_entries : List (List Byte × List Byte × Nat)
deriving Repr, DecidableEq

/-- `RDBParser::parse` (src/database.rs lines 129-166): version header, then
auxiliary fields, then the database entries starting at the cursor the aux
scan returned. -/
def rdb_parse (data : List Byte) : RResult RDBContents :=
  match parse_rdb_version data with
  | RResult.err e => RResult.err e
  | RResult.panicked => RResult.panicked
  | RResult.ok version =>
    match parse_auxiliary_fields data with
    | RResult.err e => RResult.err e
    | RResult.panicked => RResult.panicked
    | RResult.ok (aux_fields, index) =>
      match process_entries (data.drop index) with
      | RResult.err e => RResult.err e
      | RResult.panicked => RResult.panicked
      | RResult.ok (entries, expiry_entries) =>
        RResult.ok ⟨version, aux_fields, entries, expiry_entries⟩

/-! ## src/database.rs — the loader `populate_hot_storage` -/

/-- Value of one hexadecimal digit, accepting both cases
(`hex::decode`). -/
def hexDigitVal (c : Char) : Option Nat :=
  if 48 ≤ c.toNat ∧ c.toNat ≤ 57 then some (c.toNat - 48)
  else if 97 ≤ c.toNat ∧ c.toNat ≤ 102 then some (c.toNat - 87)
  else if 65 ≤ c.toNat ∧ c.toNat ≤ 70 then some (c.toNat - 55)
  else none

/-- `hex::decode` over the character list: fails on an odd number of digits
or any non-hex character. -/
def hexDecodeChars : List Char → Option (List Byte)
  | [] => some []
  | [_] => none
  | c1 :: c2 :: rest =>
    match hexDigitVal c1, hexDigitVal c2, hexDecodeChars rest with
    | some h1, some h2, some bs => some (mkByte (h1 * 16 + h2) :: bs)
    | _, _, _ => none

/-- `hex::decode` of a string. -/
def hex_decode (s : String) : Option (List Byte) :=
  hexDecodeChars s.toList

/-- `populate_hot_storage` (src/database.rs lines 50-81).  The configuration
store and the file system are passed as functions returning `Option`
(`Config::get`, and `std::fs::read_to_string` where `none` covers a missing
or unreadable file).  Every `Option`/`Result` the source force-unwraps
(`config.get(..).unwrap()`, `read_to_string(..).unwrap()`,
`hex::decode(..).expect(..)`) panics on the failure case.  After parsing,
the function only prints: whether `parse` returns `Ok` or `Err`, the
`Storage` is returned exactly as it was passed in — no entry is ever
inserted. -/
def populate_hot_storage (config : String → Option String)
    (fs : String → Option String) (storage : Storage) : RResult Storage :=
  match config "dir" with
  | none => RResult.panicked
  | some directory =>
    match config "dbfilename" with
    | none => RResult.panicked
    | some dbfilename =>
      match fs (directory ++ "/" ++ dbfilename) with
      | none => RResult.panicked
      | some rdb_contents =>
        match hex_decode (rsTrim (rsToUpper rdb_contents)) with
        | none => RResult.panicked
        | some rdb_data =>
          match rdb_parse rdb_data with
          | RResult.panicked => RResult.panicked
          | _ => RResult.ok storage

/-! ## Concrete fixtures

A small snapshot in the hex-text form `populate_hot_storage` reads: magic
`REDIS0003`, no auxiliary fields, one plain entry `"A" -> "B"`, one
`0xFD`-expiry entry `"C" -> "D"` expiring 1 second after the epoch, then the
`0xFF` terminator. -/

/-- Hex text of the fixture snapshot file. -/
def snapshotHex : String := "5245444953303030330001410142fd010000000001430144ff"

/-- The bytes that `hex::decode` yields for [snapshotHex]. -/
def snapshot_bytes : List Byte :=
  [mkByte 0x52, mkByte 0x45, mkByte 0x44, mkByte 0x49, mkByte 0x53,
   mkByte 0x30, mkByte 0x30, mkByte 0x30, mkByte 0x33,
   mkByte 0x00, mkByte 0x01, mkByte 0x41, mkByte 0x01, mkByte 0x42,
   mkByte 0xFD, mkByte 0x01, mkByte 0x00, mkByte 0x00, mkByte 0x00,
   mkByte 0x00, mkByte 0x01, mkByte 0x43, mkByte 0x01, mkByte 0x44,
   mkByte 0xFF]

/-- A configuration store holding `dir = /tmp` and
`dbfilename = dump.rdb`. -/
def snapshotConfig : String → Option String := fun key =>
  if key = "dir" then some "/tmp" else
  if key = "dbfilename" then some "dump.rdb" else none

/-- A file system in which exactly `/tmp/dump.rdb` exists and holds the
fixture snapshot text. -/
def snapshotFs : String → Option String := fun path =>
  if path = "/tmp/dump.rdb" then some snapshotHex else none

/-- The expected decoder output for the fixture snapshot. -/
def snapshotParsed : RDBContents :=
  { rdb_version := 3
    aux_fields := []
    entries := [([mkByte 0x41], [mkByte 0x42])]
    expiry_entries := [([mkByte 0x43], [mkByte 0x44], 1000)] }

end RedisRs

namespace RedisRs

/-! ## Claim theorems -/

/-- C1: the claim says that on a fully successful decode
`populate_hot_storage` calls `Store.set` for every decoded entry so that
every decoded key becomes retrievable by `get`.  The code disagrees: on the
fixture snapshot the decode fully succeeds with one non-expiring and one
expiring entry, the loader returns normally — and the store it was handed
comes back exactly as empty as it went in, with both decoded keys
unretrievable; `populate_hot_storage` contains no `Storage::set` call at
all. -/
theorem C1_loader_stores_nothing :
    hex_decode (rsTrim (rsToUpper snapshotHex)) = some snapshot_bytes ∧
    rdb_parse snapshot_bytes = RResult.ok snapshotParsed ∧
    populate_hot_storage snapshotConfig snapshotFs [] = RResult.ok [] ∧
    (storage_get [] "A" 0).1 = none ∧
    (storage_get [] "C" 0).1 = none := by
  refine ⟨by decide, by decide, by decide, rfl, rfl⟩

/-- C2: the claim says a missing or unreadable snapshot file (or absent
`dir`/`dbfilename` configuration keys) is non-fatal and the loader returns
with the store empty.  The code disagrees: `populate_hot_storage` calls
`config.get(..).unwrap()` and `std::fs::read_to_string(..).unwrap()`, so a
missing file — and equally an unset configuration key — panics. -/
theorem C2_missing_snapshot_panics :
    populate_hot_storage snapshotConfig (fun _ => none) [] = RResult.panicked ∧
    populate_hot_storage (fun _ => none) snapshotFs [] = RResult.panicked := by
  exact ⟨by decide, by decide⟩

/-- C3: the claim says `parse_command` is total and panic-free, returning
`Err` on every malformed frame; in particular on a `CONFIG`-named frame
with fewer than 5 segments and on a `CONFIG GET` frame with fewer than 7
segments.  The code disagrees: exactly those two frames reach the
unchecked `parts[4]` (source line 35) and `parts[6]` (source line 109)
indexing and panic. -/
theorem C3_config_frames_panic :
    parse_command "*2\r\n$6\r\nCONFIG\r\n$3\r\nGET\r\n" = RResult.panicked ∧
    parse_command "*1\r\n$6\r\nCONFIG\r\n" = RResult.panicked := by
  exact ⟨by decide, by decide⟩

/-- C4: the claim says the `Command` union includes `Keys` and `Info`
constructors and that well-formed KEYS / INFO frames parse to them.  The
declared enum (src/parser.rs lines 3-11) has no such constructors — even
though the dispatch in src/main.rs matches on `Command::KEYS(..)` and
`Command::INFO(..)` — and `parse_command` maps both frames to `UNKNOWN`
with the upper-cased raw name. -/
theorem C4_keys_info_parse_to_unknown :
    parse_command "*2\r\n$4\r\nKEYS\r\n$1\r\n*\r\n" = RResult.ok (Command.UNKNOWN "KEYS") ∧
    parse_command "*1\r\n$4\r\nINFO\r\n" = RResult.ok (Command.UNKNOWN "INFO") := by
  exact ⟨by decide, by decide⟩

/-- C7: the claim says every branch of `decode_integer` returns an explicit
error, never panicking, when the buffer is shorter than its marker
requires, and in particular on the one-byte buffer `[0xC0]`.  The code
disagrees on exactly the `0xC0` branch, which indexes `data[1]` with no
bounds check and panics on `[0xC0]`; the `0xC1`/`0xC2`/`0xC3` branches do
return errors as claimed. -/
theorem C7_decode_integer_c0_panics :
    decode_integer [mkByte 0xC0] = RResult.panicked ∧
    decode_integer [mkByte 0xC1] = RResult.err "Insufficient data for 16-bit integer" ∧
    decode_integer [mkByte 0xC1, mkByte 0] = RResult.err "Insufficient data for 16-bit integer" ∧
    decode_integer [mkByte 0xC2, mkByte 0, mkByte 0, mkByte 0] =
      RResult.err "Insufficient data for 32-bit integer" ∧
    decode_integer (mkByte 0xC3 :: List.replicate 7 (mkByte 0)) =
      RResult.err "Insufficient data for 64-bit integer" := by
  exact ⟨by decide, by decide, by decide, by decide, by decide⟩

/-- C5 counterexample: the claim says that at the boundary instant, when
the current time equals `expires_at` exactly, `get` returns nothing and
evicts the entry.  On the code, `Storage::get` compares with a strict
`expires_at < now`, so at that exact instant the value is still returned
and the entry stays: after `set("k","v",[("EX","100")])` at time 0 the
entry expires at 100000 ms, and `get` at exactly 100000 returns `"v"` with
the map untouched. -/
theorem C5_boundary_counterexample :
    storage_lookup (storage_set [] "k" "v" [("EX", "100")] 0) "k" =
      some { created_at := 0, value := "v", expires_at := some 100000 } ∧
    storage_get (storage_set [] "k" "v" [("EX", "100")] 0) "k" 100000 =
      (some "v", storage_set [] "k" "v" [("EX", "100")] 0) := by
  exact ⟨by decide, by decide⟩

/-- C8 counterexample: the claim says every frame naming SET with at least
7 segments parses successfully.  A SET frame with exactly 7 segments
instead hits the final `else` of the SET arm and fails with
`Invalid SET command format: Unknown optional parameters`. -/
theorem C8_seven_segment_counterexample :
    parse_command "*3\r\n$3\r\nSET\r\n$1\r\nk\r\n$1\r\nv" =
      RResult.err "Invalid SET command format: Unknown optional parameters" := by
  decide

/-- C5 (amended): for a stored entry with `expires_at = some t`, `get` at
time `now` deletes the entry and returns nothing exactly when `t` is
strictly before `now`; otherwise — including the boundary instant
`now = t` — the stored value is returned and the entry remains. -/
theorem C5_lazy_expiry_strict (st : Storage) (k : String) (now t : Nat)
    (v : StorageValue) (hlook : storage_lookup st k = some v)
    (ht : v.expires_at = some t) :
    storage_get st k now =
      if t < now then (none, storage_remove st k) else (some v.value, st) := by
  obtain ⟨ca, val, ex⟩ := v
  simp only at ht
  subst ht
  unfold storage_get
  rw [hlook]

/-- C5 witness: both sides of [C5_lazy_expiry_strict] at concrete inputs —
an entry expiring at 5 is evicted by a `get` at time 9 and survives a `get`
at time 5. -/
theorem C5_lazy_expiry_witness :
    storage_get [("k", { created_at := 0, value := "v", expires_at := some 5 })] "k" 9 =
      (none, []) ∧
    storage_get [("k", { created_at := 0, value := "v", expires_at := some 5 })] "k" 5 =
      (some "v", [("k", { created_at := 0, value := "v", expires_at := some 5 })]) := by
  constructor
  · have h := C5_lazy_expiry_strict
      [("k", { created_at := 0, value := "v", expires_at := some 5 })] "k" 9 5
      { created_at := 0, value := "v", expires_at := some 5 } (by decide) rfl
    simpa using h
  · have h := C5_lazy_expiry_strict
      [("k", { created_at := 0, value := "v", expires_at := some 5 })] "k" 5 5
      { created_at := 0, value := "v", expires_at := some 5 } (by decide) rfl
    simpa using h

/-- C6: `decode_length` implements the documented dispatch table on the
first byte — 0-63 one-byte immediate, 64-127 two-byte 14-bit form, 128-191
four-byte big-endian form, 192-253 the byte minus 192, 254 a five-byte
little-endian 32-bit form, 255 always an error — and every multi-byte
branch returns a buffer-too-short error when the window is shorter than
that branch requires. -/
theorem C6_decode_length_dispatch :
    (decode_length [] = RResult.err "Empty data when decoding length") ∧
    (∀ (b0 : Byte) (rest : List Byte), b0.val ≤ 63 →
      decode_length (b0 :: rest) = RResult.ok (1, b0.val)) ∧
    (∀ (b0 b1 : Byte) (rest : List Byte), 64 ≤ b0.val → b0.val ≤ 127 →
      decode_length (b0 :: b1 :: rest) =
        RResult.ok (2, ((b0.val &&& 0x3f) <<< 8) ||| b1.val)) ∧
    (∀ (b0 : Byte), 64 ≤ b0.val → b0.val ≤ 127 →
      decode_length [b0] = RResult.err "Insufficient data for medium length") ∧
    (∀ (b0 b1 b2 b3 : Byte) (rest : List Byte), 128 ≤ b0.val → b0.val ≤ 191 →
      decode_length (b0 :: b1 :: b2 :: b3 :: rest) =
        RResult.ok (4, ((b0.val &&& 0x3f) <<< 24) ||| (b1.val <<< 16) ||| (b2.val <<< 8) ||| b3.val)) ∧
    (∀ (b0 : Byte) (rest : List Byte), 128 ≤ b0.val → b0.val ≤ 191 → rest.length < 3 →
      decode_length (b0 :: rest) = RResult.err "Insufficient data for long length") ∧
    (∀ (b0 : Byte) (rest : List Byte), 192 ≤ b0.val → b0.val ≤ 253 →
      decode_length (b0 :: rest) = RResult.ok (1, b0.val - 192)) ∧
    (∀ (b0 b1 b2 b3 b4 : Byte) (rest : List Byte), b0.val = 254 →
      decode_length (b0 :: b1 :: b2 :: b3 :: b4 :: rest) =
        RResult.ok (5, leBytesToNat [b1, b2, b3, b4])) ∧
    (∀ (b0 : Byte) (rest : List Byte), b0.val = 254 → rest.length < 4 →
      decode_length (b0 :: rest) = RResult.err "Insufficient data for 32-bit length") ∧
    (∀ (b0 : Byte) (rest : List Byte), b0.val = 255 →
      decode_length (b0 :: rest) = RResult.err "Invalid length encoding (255)") := by
  refine ⟨rfl, ?_, ?_, ?_, ?_, ?_, ?_, ?_, ?_, ?_⟩
  · intro b0 rest h
    simp only [decode_length]
    rw [if_pos h]
  · intro b0 b1 rest h1 h2
    simp only [decode_length]
    rw [if_neg (by omega), if_pos h2]
  · intro b0 h1 h2
    simp only [decode_length]
    rw [if_neg (by omega), if_pos h2]
  · intro b0 b1 b2 b3 rest h1 h2
    simp only [decode_length]
    rw [if_neg (by omega), if_neg (by omega), if_pos h2]
  · intro b0 rest h1 h2 h3
    rcases rest with _ | ⟨a, _ | ⟨b, _ | ⟨c, t⟩⟩⟩
    · simp only [decode_length]
      rw [if_neg (by omega), if_neg (by omega), if_pos h2]
    · simp only [decode_length]
      rw [if_neg (by omega), if_neg (by omega), if_pos h2]
    · simp only [decode_length]
      rw [if_neg (by omega), if_neg (by omega), if_pos h2]
    · exact absurd h3 (by simp)
  · intro b0 rest h1 h2
    simp only [decode_length]
    rw [if_neg (by omega), if_neg (by omega), if_neg (by omega), if_pos h2]
  · intro b0 b1 b2 b3 b4 rest h
    simp only [decode_length]
    rw [if_neg (by omega), if_neg (by omega), if_neg (by omega), if_neg (by omega),
      if_pos h]
  · intro b0 rest h1 h2
    rcases rest with _ | ⟨a, _ | ⟨b, _ | ⟨c, _ | ⟨d, t⟩⟩⟩⟩
    case cons.cons.cons.cons => exact absurd h2 (by simp)
    all_goals
      simp only [decode_length]
      rw [if_neg (by omega), if_neg (by omega), if_neg (by omega), if_neg (by omega),
        if_pos h1]
  · intro b0 rest h
    simp only [decode_length]
    rw [if_neg (by omega), if_neg (by omega), if_neg (by omega), if_neg (by omega),
      if_neg (by omega)]

/-- C6 witness: one concrete instance of every row of the
[C6_decode_length_dispatch] table. -/
theorem C6_decode_length_witness :
    decode_length [mkByte 63] = RResult.ok (1, 63) ∧
    decode_length [mkByte 64, mkByte 7] = RResult.ok (2, 7) ∧
    decode_length [mkByte 64] = RResult.err "Insufficient data for medium length" ∧
    decode_length [mkByte 130, mkByte 1, mkByte 2, mkByte 3] =
      RResult.ok (4, (2 <<< 24) ||| (1 <<< 16) ||| (2 <<< 8) ||| 3) ∧
    decode_length [mkByte 130, mkByte 1] = RResult.err "Insufficient data for long length" ∧
    decode_length [mkByte 200] = RResult.ok (1, 8) ∧
    decode_length [mkByte 254, mkByte 1, mkByte 0, mkByte 0, mkByte 0] = RResult.ok (5, 1) ∧
    decode_length [mkByte 254, mkByte 1] = RResult.err "Insufficient data for 32-bit length" ∧
    decode_length [mkByte 255, mkByte 9] = RResult.err "Invalid length encoding (255)" := by
  refine ⟨?_, ?_, ?_, ?_, ?_, ?_, ?_, ?_, ?_⟩
  · exact C6_decode_length_dispatch.2.1 (mkByte 63) [] (by decide)
  · exact C6_decode_length_dispatch.2.2.1 (mkByte 64) (mkByte 7) [] (by decide) (by decide)
  · exact C6_decode_length_dispatch.2.2.2.1 (mkByte 64) (by decide) (by decide)
  · exact C6_decode_length_dispatch.2.2.2.2.1 (mkByte 130) (mkByte 1) (mkByte 2) (mkByte 3) []
      (by decide) (by decide)
  · exact C6_decode_length_dispatch.2.2.2.2.2.1 (mkByte 130) [mkByte 1] (by decide) (by decide)
      (by decide)
  · exact C6_decode_length_dispatch.2.2.2.2.2.2.1 (mkByte 200) [] (by decide) (by decide)
  · exact C6_decode_length_dispatch.2.2.2.2.2.2.2.1 (mkByte 254) (mkByte 1) (mkByte 0) (mkByte 0)
      (mkByte 0) [] (by decide)
  · exact C6_decode_length_dispatch.2.2.2.2.2.2.2.2.1 (mkByte 254) [mkByte 1] (by decide)
      (by decide)
  · exact C6_decode_length_dispatch.2.2.2.2.2.2.2.2.2 (mkByte 255) [mkByte 9] (by decide)

/-- C8 (amended): every frame whose segment 0 starts with `*`, whose
segment 2 names SET case-insensitively, and which splits into at least 8
segments parses successfully to `SET` with key = segment 4 and
value = segment 6 (segments from index 8 on becoming option tokens); a SET
frame with exactly 7 segments instead yields a protocol error, shown by
[C8_seven_segment_counterexample]. -/
theorem C8_set_parse (parts : List String) (h8 : 8 ≤ parts.length)
    (h0 : rsStartsWith (parts.getD 0 "") "*" = true)
    (h2 : rsToUpper (parts.getD 2 "") = "SET") :
    ∃ opts, parse_command_parts parts =
      RResult.ok (Command.SET (parts.getD 4 "") (parts.getD 6 "") opts) := by
  unfold parse_command_parts
  rw [if_neg (by push_neg; exact ⟨by omega, by simpa using h0⟩)]
  rw [h2]
  rw [if_neg (by decide)]
  unfold parse_dispatch
  rw [if_neg (by decide), if_neg (by decide), if_pos rfl, if_neg (by omega)]
  by_cases h : parts.length = 8
  · rw [if_pos h]
    exact ⟨none, rfl⟩
  · rw [if_neg h, if_pos (by omega)]
    exact ⟨some _, rfl⟩

/-- C8 witness: [C8_set_parse] applied to the 8-segment frame
`*3\r\n$3\r\nSET\r\n$1\r\nk\r\n$1\r\nv\r\n`. -/
theorem C8_set_parse_witness :
    ∃ opts, parse_command_parts ["*3", "$3", "SET", "$1", "k", "$1", "v", ""] =
      RResult.ok (Command.SET "k" "v" opts) :=
  C8_set_parse ["*3", "$3", "SET", "$1", "k", "$1", "v", ""]
    (by decide) (by decide) (by decide)

/-- Auxiliary fact: filtering out every binding of `k` leaves a list in
which no binding of `k` is counted. -/
theorem countP_filter_out (l : Storage) (k : String) :
    (l.filter (fun kv => !(decide (kv.1 = k)))).countP (fun kv => decide (kv.1 = k)) = 0 := by
  induction l with
  | nil => rfl
  | cons a t ih =>
    by_cases h : a.1 = k
    · simp [List.filter_cons, h, ih]
    · simp [List.filter_cons, h, List.countP_cons, ih]

/-- C9: `set(k, v1, [("EX","100")])` followed by `set(k, v2, [])` leaves
exactly one binding for `k`, holding `v2` with no expiry and
`created_at = t1`, and a subsequent `get` at any later (or earlier) time
returns `v2` and leaves the store untouched — full replacement
semantics. -/
theorem C9_full_replacement (st : Storage) (k v1 v2 : String) (t0 t1 now : Nat) :
    storage_lookup (storage_set (storage_set st k v1 [("EX", "100")] t0) k v2 [] t1) k =
      some { created_at := t1, value := v2, expires_at := none } ∧
    (storage_set (storage_set st k v1 [("EX", "100")] t0) k v2 [] t1).countP
      (fun kv => decide (kv.1 = k)) = 1 ∧
    storage_get (storage_set (storage_set st k v1 [("EX", "100")] t0) k v2 [] t1) k now =
      (some v2, storage_set (storage_set st k v1 [("EX", "100")] t0) k v2 [] t1) := by
  refine ⟨?_, ?_, ?_⟩
  · simp [storage_set, storage_insert, storage_lookup]
  · simp only [storage_set, storage_insert, List.countP_cons]
    simp [countP_filter_out]
  · simp [storage_get, storage_set, storage_insert, storage_lookup]

/-- C10: whenever `decode_length_encoded_data` succeeds with
`(consumed, payload)`, `consumed` is the length-header size plus the
payload length, `consumed` never exceeds the window length, and the payload
is exactly the window bytes from the end of the header up to `consumed` —
the cursor advance never overruns the buffer. -/
theorem C10_consumed_invariant (data : List Byte) (c : Nat) (p : List Byte)
    (h : decode_length_encoded_data data = RResult.ok (c, p)) :
    c ≤ data.length ∧
    ∃ lb len, decode_length data = RResult.ok (lb, len) ∧
      c = lb + p.length ∧ p = (data.drop lb).take len := by
  unfold decode_length_encoded_data at h
  by_cases hemp : data.isEmpty
  · rw [if_pos hemp] at h
    exact absurd h (by simp)
  · rw [if_neg hemp] at h
    cases hdl : decode_length data with
    | err e => rw [hdl] at h; exact absurd h (by simp)
    | panicked => rw [hdl] at h; exact absurd h (by simp)
    | ok r =>
      obtain ⟨lb, len⟩ := r
      rw [hdl] at h
      have h2 : (if data.length < lb + len then
          RResult.err ("Insufficient data for encoded string. Need " ++
            toString (lb + len) ++ " bytes, have " ++ toString data.length)
        else RResult.ok (lb + len, (data.drop lb).take len)) = RResult.ok (c, p) := h
      by_cases hshort : data.length < lb + len
      · rw [if_pos hshort] at h2
        exact absurd h2 (by simp)
      · rw [if_neg hshort] at h2
        obtain ⟨rfl, rfl⟩ : lb + len = c ∧ (data.drop lb).take len = p := by
          cases h2; exact ⟨rfl, rfl⟩
        have hplen : ((data.drop lb).take len).length = len := by
          simp [List.length_take, List.length_drop]
          omega
        refine ⟨by omega, lb, len, rfl, by omega, rfl⟩

/-- C10 witness: [C10_consumed_invariant] on the window
`[0x02, 10, 20, 30]`, whose header is one byte and whose payload is
`[10, 20]`. -/
theorem C10_consumed_witness :
    3 ≤ ([mkByte 2, mkByte 10, mkByte 20, mkByte 30] : List Byte).length ∧
    ∃ lb len,
      decode_length [mkByte 2, mkByte 10, mkByte 20, mkByte 30] = RResult.ok (lb, len) ∧
      3 = lb + ([mkByte 10, mkByte 20] : List Byte).length ∧
      ([mkByte 10, mkByte 20] : List Byte) =
        (([mkByte 2, mkByte 10, mkByte 20, mkByte 30] : List Byte).drop lb).take len :=
  C10_consumed_invariant [mkByte 2, mkByte 10, mkByte 20, mkByte 30] 3
    [mkByte 10, mkByte 20] (by decide)

end RedisRs
